import Mathlib

/-!
Shallow embedding of the `ai_code_review` repository's analysis core
(`reviewer/analyzers.py`, `reviewer/ai_checker.py`, `reviewer/views.py`).

External collaborators are modelled as oracles:
- `radon.complexity.cc_visit` is modelled by its outcome, an
  `Except String (List CCBlock)` (either the list of per-function
  complexity blocks, or the message of the exception it raised);
- `radon.metrics.mi_visit` is modelled by an `Except String ℚ`;
- the OpenAI chat-completion call is modelled by its outcome,
  an `Except String String` (completion text or exception message).

Python floats are modelled as rationals; Python `round(x, 2)` is
round-half-to-even at two decimals (`round2`).
-/

namespace AICodeReview

/-- One block returned by `radon`'s `cc_visit`: a function name and its
cyclomatic complexity (a positive integer in radon). -/
structure CCBlock where
  name : String
  complexity : Nat
  deriving Repr, DecidableEq

/-- An issue record appended to `CodeAnalyzer.issues`.  The Python code uses
dicts with a `type` key; each constructor is one `type`, carrying the same
payload fields the dict carries. -/
inductive Issue where
  | highComplexity (function : String) (complexity : Nat) (message : String)
  | style (line : Nat) (message : String)
  | todo (line : Nat) (message : String)
  | debug (line : Nat) (message : String)
  | errorHandling (line : Nat) (message : String)
  deriving Repr, DecidableEq

/-- Line number carried by a scan issue (`0` for the complexity issues,
which carry a function name instead of a line). -/
def issueLine : Issue → Nat
  | Issue.highComplexity _ _ _ => 0
  | Issue.style i _ => i
  | Issue.todo i _ => i
  | Issue.debug i _ => i
  | Issue.errorHandling i _ => i

/-- The dict returned by `CodeAnalyzer.analyze_complexity`; `error` is the
optional `error` key present only on the exception path. -/
structure ComplexityResult where
  average_complexity : ℚ
  max_complexity : ℚ
  error : Option String
  deriving Repr, DecidableEq

/-- Python's `round` at `ndigits = 0`: nearest integer, ties to even. -/
def roundHalfEven (q : ℚ) : ℤ :=
  if q - Int.floor q < 1 / 2 then Int.floor q
  else if 1 / 2 < q - Int.floor q then Int.floor q + 1
  else if Int.floor q % 2 = 0 then Int.floor q else Int.floor q + 1

/-- Python's `round(x, 2)`. -/
def round2 (q : ℚ) : ℚ := (roundHalfEven (100 * q) : ℚ) / 100

/-- Split a character list at each occurrence of `'\n'`.  `[]` yields
`[[]]`, matching Python's `"".split('\n') == ['']`. -/
def splitNl : List Char → List (List Char)
  | [] => [[]]
  | c :: rest =>
    if c = '\n' then [] :: splitNl rest
    else
      match splitNl rest with
      | [] => [[c]]
      | s :: ss => (c :: s) :: ss

/-- Python's `code.split('\n')`: the list of newline-delimited lines
(structurally recursive, so it evaluates inside the kernel). -/
def pySplitLines (s : String) : List String :=
  (splitNl s.data).map String.mk

/-- The message attached to a high-complexity issue
(`analyzers.py` line 51). -/
def hcMessage (name : String) (c : Nat) : String :=
  "Function \x27" ++ name ++ "\x27 has high cyclomatic complexity (" ++
    toString c ++ "). Consider refactoring."

namespace CodeAnalyzer

/-- `CodeAnalyzer.analyze_complexity` (`analyzers.py` lines 25-60).
Returns the complexity dict together with the high-complexity issues the
method appends to `self.issues` (returned explicitly instead of mutated,
in emission order). -/
def analyze_complexity (language : String)
    (cc : Except String (List CCBlock)) : ComplexityResult × List Issue :=
  if language ≠ "python" then
    (⟨0, 0, none⟩, [])
  else
    match cc with
    | Except.error e => (⟨0, 0, some e⟩, [])
    | Except.ok results =>
      if results.isEmpty then (⟨0, 0, none⟩, [])
      else
        let complexities := results.map (fun r => r.complexity)
        let avg_complexity : ℚ :=
          (complexities.sum : ℚ) / (complexities.length : ℚ)
        let max_complexity : ℚ := ((complexities.max?).getD 0 : ℚ)
        let hcIssues := results.filterMap (fun r =>
          if 10 < r.complexity then
            some (Issue.highComplexity r.name r.complexity
              (hcMessage r.name r.complexity))
          else none)
        (⟨round2 avg_complexity, max_complexity, none⟩, hcIssues)

/-- Python substring test `sub in s`. -/
def containsSub (sub s : String) : Bool :=
  (List.range (s.data.length + 1)).any
    (fun i => sub.data.isPrefixOf (s.data.drop i))

/-- A character matched by Python's regex `\w` (ASCII view): letters,
digits, underscore. -/
def isPyWordChar (c : Char) : Bool := c.isAlphanum || c = '_'

/-- A character matched by Python's regex `\s` / stripped by `str.strip()`
(ASCII view). -/
def isPySpace (c : Char) : Bool :=
  c = ' ' || c = '\t' || c = '\n' || c = '\r' || c = '\x0b' || c = '\x0c'

/-- Does `print\s*\(` match at the start of this character list? -/
def printMatchAt (l : List Char) : Bool :=
  "print".data.isPrefixOf l &&
    (match (l.drop 5).dropWhile isPySpace with
     | '(' :: _ => true
     | _ => false)

/-- Python's `re.search(r"\bprint\s*\(", line)` as a Bool: the pattern
matches at some position whose preceding character (if any) is not a word
character (the `\b` boundary before `print`). -/
def hasPrintCall (line : String) : Bool :=
  (List.range (line.data.length + 1)).any (fun i =>
    (i == 0 || !isPyWordChar (line.data.getD (i - 1) ' ')) &&
      printMatchAt (line.data.drop i))

/-- Python's `line.strip()` (ASCII whitespace view). -/
def pyStrip (s : String) : String :=
  String.mk (((s.data.dropWhile isPySpace).reverse.dropWhile
    isPySpace).reverse)

/-- Python's `s.startswith('#')`. -/
def startsWithHash (s : String) : Bool :=
  match s.data with
  | '#' :: _ => true
  | _ => false

/-- Message of a long-line issue (`analyzers.py` line 78). -/
def styleMessage (i n : Nat) : String :=
  "Line " ++ toString i ++ " exceeds 120 characters (" ++ toString n ++
    " chars)"

/-- Message of a TODO/FIXME issue (`analyzers.py` line 87). -/
def todoMessage (i : Nat) : String :=
  "Line " ++ toString i ++ " contains TODO/FIXME comment"

/-- Message of a debug-print issue (`analyzers.py` line 97). -/
def debugMessage (i : Nat) : String :=
  "Line " ++ toString i ++ " contains print statement - consider using logging"

/-- Message of a bare-except issue (`analyzers.py` line 107). -/
def bareExceptMessage (i : Nat) : String :=
  "Line " ++ toString i ++ " has bare except clause - specify exception type"

/-- One line-oriented pass: visit `enumerate(lines, 1)` in order and keep
the issues the per-line check emits. -/
def scanPass (g : Nat → String → Option Issue) (lines : List String) :
    List Issue :=
  (List.enumFrom 1 lines).filterMap (fun p => g p.1 p.2)

/-- Per-line check of the long-line pass (`analyzers.py` lines 73-79). -/
def longLineCheck (i : Nat) (line : String) : Option Issue :=
  if 120 < line.length then
    some (Issue.style i (styleMessage i line.length))
  else none

/-- Per-line check of the TODO/FIXME pass (`analyzers.py` lines 82-88). -/
def todoCheck (i : Nat) (line : String) : Option Issue :=
  if containsSub "TODO" line || containsSub "FIXME" line then
    some (Issue.todo i (todoMessage i))
  else none

/-- Per-line check of the debug-print pass (`analyzers.py` lines 92-98). -/
def debugCheck (i : Nat) (line : String) : Option Issue :=
  if hasPrintCall line && !startsWithHash (pyStrip line) then
    some (Issue.debug i (debugMessage i))
  else none

/-- Per-line check of the bare-except pass (`analyzers.py` lines 102-108). -/
def bareExceptCheck (i : Nat) (line : String) : Option Issue :=
  if containsSub "except:" line || containsSub "except :" line then
    some (Issue.errorHandling i (bareExceptMessage i))
  else none

/-- `CodeAnalyzer.check_common_issues` (`analyzers.py` lines 62-110): the
issues the four line-scan passes append, in append order.  The debug-print
and bare-except passes run only for `language == 'python'`. -/
def check_common_issues (code language : String) : List Issue :=
  let lines := pySplitLines code
  scanPass longLineCheck lines ++ scanPass todoCheck lines ++
    (if language = "python" then scanPass debugCheck lines else []) ++
    (if language = "python" then scanPass bareExceptCheck lines else [])

/-- `CodeAnalyzer.calculate_maintainability_index`
(`analyzers.py` lines 112-126); `mi` is the outcome of `mi_visit`. -/
def calculate_maintainability_index (language : String)
    (mi : Except String ℚ) : ℚ :=
  if language ≠ "python" then 0
  else
    match mi with
    | Except.error _ => 0
    | Except.ok m => if m = 0 then 0 else round2 m

/-- The dict returned by `CodeAnalyzer.get_analysis_summary`. -/
structure AnalysisSummary where
  complexity : ComplexityResult
  maintainability_index : ℚ
  issues : List Issue
  total_issues : Nat
  lines_of_code : Nat
  deriving Repr, DecidableEq

/-- `CodeAnalyzer.get_analysis_summary` (`analyzers.py` lines 128-149):
run the complexity pass, then the line-scan passes (their issues append to
the same `self.issues`, modelled as concatenation in pass order), then the
maintainability computation, and assemble the summary. -/
def get_analysis_summary (code language : String)
    (cc : Except String (List CCBlock)) (mi : Except String ℚ) :
    AnalysisSummary :=
  let c := analyze_complexity language cc
  let issues := c.2 ++ check_common_issues code language
  { complexity := c.1
    maintainability_index := calculate_maintainability_index language mi
    issues := issues
    total_issues := issues.length
    lines_of_code := (pySplitLines code).length }

end CodeAnalyzer

namespace AICodeChecker

/-- `AICodeChecker.review_code` (`ai_checker.py` lines 23-81).  The whole
try-body (prompt construction plus the chat-completion network call) is
modelled by its outcome `api`: `Except.ok content` when the call returns a
completion, `Except.error e` when anything inside the try raises with
message `e`.  The except-arm builds the degraded string. -/
def review_code (api : Except String String) : String :=
  match api with
  | Except.ok content => content
  | Except.error e => "AI Review unavailable: " ++ e

/-- The bullet text rendered for one issue in `suggest_improvements`:
Python's `issue.get('message', issue.get('type', 'Unknown'))`; every issue
dict this program builds carries a `message` key. -/
def issueMessage : Issue → String
  | Issue.highComplexity _ _ m => m
  | Issue.style _ m => m
  | Issue.todo _ m => m
  | Issue.debug _ m => m
  | Issue.errorHandling _ m => m

/-- `AICodeChecker.suggest_improvements` (`ai_checker.py` lines 83-120).
`api` maps the prompt sent to the chat-completion call to its outcome.
The second component of the result records whether the external call was
made at all. -/
def suggest_improvements (code : String) (issues : List Issue)
    (api : String → Except String String) : String × Bool :=
  if issues.isEmpty then
    ("No critical issues found. Code looks good!", false)
  else
    let issues_text := String.intercalate "\n"
      ((issues.take 5).map (fun issue => "- " ++ issueMessage issue))
    let prompt :=
      "Given these code issues:\n" ++ issues_text ++
        "\n\nProvide 3-5 specific, actionable improvements for this code. Be concise and practical."
    match api prompt with
    | Except.ok content => (content, true)
    | Except.error e => ("Unable to generate suggestions: " ++ e, true)

end AICodeChecker

namespace views

/-- Outcome of the AI section of the `review_code` view: either the
`AICodeChecker()` constructor raised (`ctorError`), or it succeeded and
the `review_code` call's try-body had outcome `callResult`. -/
inductive AIOutcome where
  | ctorError (e : String)
  | callResult (r : Except String String)

/-- The `ai_feedback` value computed by the `review_code` view
(`views.py` lines 26-32): `""` when `use_ai` is false; otherwise the
checker's answer, with the view's own except-arm catching a constructor
failure with a different message. -/
def ai_feedback_of (use_ai : Bool) (o : AIOutcome) : String :=
  if use_ai then
    match o with
    | AIOutcome.ctorError e => "AI review not available: " ++ e
    | AIOutcome.callResult r => AICodeChecker.review_code r
  else ""

/-- The fields of the `CodeReview` record the view persists
(`models.py`; `id`/`created_at` are store-assigned and omitted). -/
structure CodeReview where
  code : String
  language : String
  complexity_score : ℚ
  ai_feedback : String
  issues_found : List Issue
  deriving Repr, DecidableEq

/-- The `review_code` view (`views.py` lines 9-58) after validation:
run the analyzer, compute `ai_feedback`, persist the record.  Returns the
persisted record together with the analysis summary the response mirrors.
`complexity_score` is `analysis_summary['complexity'].get('average_complexity', 0)`;
the key is present on every path of `analyze_complexity`, so this is the
summary's `average_complexity` field. -/
def review_code (code language : String) (use_ai : Bool)
    (cc : Except String (List CCBlock)) (mi : Except String ℚ)
    (ai : AIOutcome) : CodeReview × CodeAnalyzer.AnalysisSummary :=
  let analysis_summary := CodeAnalyzer.get_analysis_summary code language cc mi
  let ai_feedback := ai_feedback_of use_ai ai
  ({ code := code
     language := language
     complexity_score := analysis_summary.complexity.average_complexity
     ai_feedback := ai_feedback
     issues_found := analysis_summary.issues }, analysis_summary)

end views

/-- The unrounded mean of the complexities of a `cc_visit` result list
(what `avg_complexity` is in `analyze_complexity` before `round(..., 2)`). -/
def rawAverage (results : List CCBlock) : ℚ :=
  ((results.map (fun r => r.complexity)).sum : ℚ) /
    (((results.map (fun r => r.complexity)).length : ℚ))

open CodeAnalyzer

/-! ### Helper lemmas -/

/-- Reduction of `analyze_complexity` on the deeply supported language with
a successful, non-empty `cc_visit` outcome. -/
theorem analyze_complexity_python_ok (results : List CCBlock)
    (h : results ≠ []) :
    analyze_complexity "python" (Except.ok results) =
      (⟨round2 (rawAverage results),
        (((results.map (fun r => r.complexity)).max?).getD 0 : ℚ), none⟩,
       results.filterMap (fun r =>
         if 10 < r.complexity then
           some (Issue.highComplexity r.name r.complexity
             (hcMessage r.name r.complexity))
         else none)) := by
  have hne : results.isEmpty = false := by
    cases results with
    | nil => exact absurd rfl h
    | cons a l => rfl
  simp [analyze_complexity, hne, rawAverage]

/-- `analyze_complexity` on any non-"python" language is the degraded
constant, whatever the library oracle says. -/
theorem analyze_complexity_non_python (language : String)
    (h : language ≠ "python") (cc : Except String (List CCBlock)) :
    analyze_complexity language cc = (⟨0, 0, none⟩, []) := by
  simp [analyze_complexity, h]

/-- Every issue emitted by the complexity pass is a `highComplexity`
issue. -/
theorem analyze_complexity_snd_hc (language : String)
    (cc : Except String (List CCBlock)) :
    ∀ y ∈ (analyze_complexity language cc).2,
      ∃ f c m, y = Issue.highComplexity f c m := by
  intro y hy
  by_cases hl : language = "python"
  · subst hl
    cases cc with
    | error e => simp [analyze_complexity] at hy
    | ok results =>
      cases results with
      | nil => simp [analyze_complexity] at hy
      | cons a l =>
        rw [analyze_complexity_python_ok (a :: l) (by simp)] at hy
        rcases List.mem_filterMap.mp hy with ⟨r, _, hr⟩
        by_cases hc : 10 < r.complexity
        · rw [if_pos hc] at hr
          exact ⟨r.name, r.complexity, hcMessage r.name r.complexity,
            (Option.some.injEq _ _ ▸ hr).symm⟩
        · rw [if_neg hc] at hr
          exact absurd hr (by simp)
  · rw [analyze_complexity_non_python language hl] at hy
    simp at hy

/-- Unfolding of `List.enumFrom` on a cons cell. -/
theorem enumFrom_cons_eq (n : Nat) (x : String) (xs : List String) :
    List.enumFrom n (x :: xs) = (n, x) :: List.enumFrom (n + 1) xs := rfl

/-- In a scan pass whose per-line check stamps the visited line number on
each issue it emits, every emitted issue's line number is at least the
first visited line number. -/
theorem scanPass_issueLine_ge (g : Nat → String → Option Issue)
    (hg : ∀ i x y, g i x = some y → issueLine y = i) :
    ∀ (n : Nat) (l : List String) (y : Issue),
      y ∈ (List.enumFrom n l).filterMap (fun p => g p.1 p.2) →
        n ≤ issueLine y := by
  intro n l
  induction l generalizing n with
  | nil => intro y h; simp [List.enumFrom] at h
  | cons x xs ih =>
    intro y h
    rw [enumFrom_cons_eq, List.filterMap_cons] at h
    cases hgx : g n x with
    | none =>
      rw [hgx] at h
      exact Nat.le_of_succ_le (ih (n + 1) y h)
    | some z =>
      rw [hgx] at h
      rcases List.mem_cons.mp h with h1 | h2
      · subst h1; exact Nat.le_of_eq (hg n x y hgx).symm
      · exact Nat.le_of_succ_le (ih (n + 1) y h2)

/-- In such a scan pass, the emitted issues carry strictly increasing line
numbers. -/
theorem scanPass_pairwise (g : Nat → String → Option Issue)
    (hg : ∀ i x y, g i x = some y → issueLine y = i) :
    ∀ (n : Nat) (l : List String),
      List.Pairwise (fun a b => issueLine a < issueLine b)
        ((List.enumFrom n l).filterMap (fun p => g p.1 p.2)) := by
  intro n l
  induction l generalizing n with
  | nil => simp [List.enumFrom]
  | cons x xs ih =>
    rw [enumFrom_cons_eq, List.filterMap_cons]
    cases hgx : g n x with
    | none => exact ih (n + 1)
    | some z =>
      refine List.Pairwise.cons ?_ (ih (n + 1))
      intro b hb
      have h1 : issueLine z = n := hg n x z hgx
      have h2 : n + 1 ≤ issueLine b :=
        scanPass_issueLine_ge g hg (n + 1) xs b hb
      omega

/-- In such a scan pass, the number of emitted issues carrying the line
number of a visited line is `1` when the check fires on that line and `0`
otherwise. -/
theorem scanPass_countP (g : Nat → String → Option Issue)
    (hg : ∀ i x y, g i x = some y → issueLine y = i) :
    ∀ (l : List String) (n i : Nat) (line : String), l.get? i = some line →
      ((List.enumFrom n l).filterMap (fun p => g p.1 p.2)).countP
          (fun y => issueLine y == n + i) =
        (match g (n + i) line with | some _ => 1 | none => 0) := by
  intro l
  induction l with
  | nil => intro n i line h; simp at h
  | cons x xs ih =>
    intro n i line h
    rw [enumFrom_cons_eq, List.filterMap_cons]
    cases i with
    | zero =>
      have hx : x = line := by simpa using h
      subst hx
      simp only [Nat.add_zero]
      have htail : ((List.enumFrom (n + 1) xs).filterMap
          (fun p => g p.1 p.2)).countP (fun y => issueLine y == n) = 0 := by
        rw [List.countP_eq_zero]
        intro y hy
        have := scanPass_issueLine_ge g hg (n + 1) xs y hy
        simp only [beq_iff_eq]
        omega
      cases hgx : g n x with
      | none => exact htail
      | some z =>
        have hz : issueLine z = n := hg n x z hgx
        have hcons : List.countP (fun y => issueLine y == n)
            (z :: (List.enumFrom (n + 1) xs).filterMap
              (fun p => g p.1 p.2)) = 1 := by
          rw [List.countP_cons, htail]
          simp [hz]
        exact hcons
    | succ i =>
      have hx : xs.get? i = some line := by simpa using h
      have harith : n + (i + 1) = (n + 1) + i := by omega
      rw [harith]
      have htl := ih (n + 1) i line hx
      cases hgx : g n x with
      | none => exact htl
      | some z =>
        have hz : issueLine z = n := hg n x z hgx
        have hfalse : (issueLine z == (n + 1) + i) = false := by
          simp only [beq_eq_false_iff_ne, ne_eq]
          omega
        have hcons : List.countP (fun y => issueLine y == (n + 1) + i)
            (z :: (List.enumFrom (n + 1) xs).filterMap
              (fun p => g p.1 p.2)) =
            (match g ((n + 1) + i) line with
             | some _ => 1 | none => 0) := by
          rw [List.countP_cons, hfalse]
          simpa using htl
        exact hcons

/-- In such a scan pass, an issue the check emits on a visited line is a
member of the pass output. -/
theorem scanPass_mem (g : Nat → String → Option Issue) :
    ∀ (l : List String) (n i : Nat) (line : String) (y : Issue),
      l.get? i = some line → g (n + i) line = some y →
        y ∈ (List.enumFrom n l).filterMap (fun p => g p.1 p.2) := by
  intro l
  induction l with
  | nil => intro n i line y h; simp at h
  | cons x xs ih =>
    intro n i line y h hy
    rw [enumFrom_cons_eq, List.filterMap_cons]
    cases i with
    | zero =>
      have hx : x = line := by simpa using h
      subst hx
      rw [show g n x = some y from hy]
      exact List.mem_cons_self y _
    | succ i =>
      have hx : xs.get? i = some line := by simpa using h
      have harith : n + (i + 1) = (n + 1) + i := by omega
      have htl := ih (n + 1) i line y hx (by rw [← harith]; exact hy)
      cases hgx : g n x with
      | none => exact htl
      | some z => exact List.mem_cons_of_mem z htl

/-- `longLineCheck` stamps the visited line number. -/
theorem longLineCheck_line (i : Nat) (x : String) (y : Issue)
    (h : longLineCheck i x = some y) : issueLine y = i := by
  unfold longLineCheck at h
  split at h
  · cases h; rfl
  · cases h

/-- `todoCheck` stamps the visited line number. -/
theorem todoCheck_line (i : Nat) (x : String) (y : Issue)
    (h : todoCheck i x = some y) : issueLine y = i := by
  unfold todoCheck at h
  split at h
  · cases h; rfl
  · cases h

/-- `debugCheck` stamps the visited line number. -/
theorem debugCheck_line (i : Nat) (x : String) (y : Issue)
    (h : debugCheck i x = some y) : issueLine y = i := by
  unfold debugCheck at h
  split at h
  · cases h; rfl
  · cases h

/-- `bareExceptCheck` stamps the visited line number. -/
theorem bareExceptCheck_line (i : Nat) (x : String) (y : Issue)
    (h : bareExceptCheck i x = some y) : issueLine y = i := by
  unfold bareExceptCheck at h
  split at h
  · cases h; rfl
  · cases h

/-- Predicate: `y` is a high-complexity issue for function `name`. -/
def hcFor (name : String) : Issue → Bool
  | Issue.highComplexity f _ _ => f == name
  | _ => false

/-- The per-function check of the complexity pass, as a filterMap step. -/
def hcCheck (r : CCBlock) : Option Issue :=
  if 10 < r.complexity then
    some (Issue.highComplexity r.name r.complexity
      (hcMessage r.name r.complexity))
  else none

/-- When function names are distinct, the complexity pass emits exactly
one issue for a listed function above the threshold, and none for one at
or below it. -/
theorem hc_filterMap_countP (r : CCBlock) :
    ∀ results : List CCBlock, (results.map CCBlock.name).Nodup →
      r ∈ results →
      (results.filterMap hcCheck).countP (hcFor r.name) =
        if 10 < r.complexity then 1 else 0 := by
  intro results
  induction results with
  | nil => intro _ h; simp at h
  | cons x xs ih =>
    intro hnd hr
    have hnd' : x.name ∉ xs.map CCBlock.name ∧
        (xs.map CCBlock.name).Nodup := by
      rw [List.map_cons, List.nodup_cons] at hnd
      exact hnd
    rcases List.mem_cons.mp hr with rfl | hmem
    · have htail : (xs.filterMap hcCheck).countP (hcFor r.name) = 0 := by
        rw [List.countP_eq_zero]
        intro y hy
        rcases List.mem_filterMap.mp hy with ⟨r', hr', hval⟩
        unfold hcCheck at hval
        split at hval
        · cases hval
          simp only [hcFor, beq_iff_eq]
          intro hcontr
          exact hnd'.1 (hcontr ▸ List.mem_map_of_mem CCBlock.name hr')
        · cases hval
      by_cases hcr : 10 < r.complexity
      · rw [List.filterMap_cons]
        simp [hcCheck, hcr, List.countP_cons, htail, hcFor]
      · rw [List.filterMap_cons]
        simp [hcCheck, hcr, htail]
    · have hx_ne : x.name ≠ r.name := by
        intro hcontr
        exact hnd'.1 (hcontr ▸ List.mem_map_of_mem CCBlock.name hmem)
      have htl := ih hnd'.2 hmem
      by_cases hcx : 10 < x.complexity
      · rw [List.filterMap_cons]
        simp [hcCheck, hcx, List.countP_cons, hcFor, hx_ne, htl]
      · rw [List.filterMap_cons]
        simp [hcCheck, hcx, htl]

/-- `check_common_issues` on the empty submission finds nothing, whatever
the language. -/
theorem check_common_issues_empty (language : String) :
    check_common_issues "" language = [] := by
  simp only [check_common_issues]
  rw [show scanPass debugCheck (pySplitLines "") = [] from rfl,
      show scanPass bareExceptCheck (pySplitLines "") = [] from rfl,
      ite_self]
  rfl

/-! ### Claims -/

/-- C1: for every code string and language (and any outcome of the two
library oracles), the summary returned by
`CodeAnalyzer.get_analysis_summary` satisfies
`total_issues = length issues` for the issue list of that same summary. -/
theorem C1_total_issues_eq_length (code language : String)
    (cc : Except String (List CCBlock)) (mi : Except String ℚ) :
    (get_analysis_summary code language cc mi).total_issues =
      (get_analysis_summary code language cc mi).issues.length := rfl

/-- C2: `get_analysis_summary` never fails: a failing complexity library
yields `{average_complexity := 0, max_complexity := 0, error := msg}`, a
failing maintainability computation yields `0`, and for every input the
aggregator returns the assembled summary built from its sub-steps (every
sub-step is a total function of the source and the oracle outcomes). -/
theorem C2_never_raises (code language e em : String)
    (cc : Except String (List CCBlock)) (mi : Except String ℚ) :
    analyze_complexity "python" (Except.error e) = (⟨0, 0, some e⟩, []) ∧
    calculate_maintainability_index "python" (Except.error em) = 0 ∧
    get_analysis_summary code language cc mi =
      { complexity := (analyze_complexity language cc).1
        maintainability_index := calculate_maintainability_index language mi
        issues := (analyze_complexity language cc).2 ++
          check_common_issues code language
        total_issues := ((analyze_complexity language cc).2 ++
          check_common_issues code language).length
        lines_of_code := (pySplitLines code).length } := by
  refine ⟨?_, rfl, rfl⟩
  simp [analyze_complexity]

/-- C5: for every language other than "python", `analyze_complexity`
returns the degraded `{average_complexity := 0, max_complexity := 0}`
without consulting the library oracle (the result is the same for any two
oracle outcomes, hence for any two code inputs), and
`calculate_maintainability_index` returns `0`. -/
theorem C5_non_python_degraded (language code code2 : String)
    (cc cc2 : Except String (List CCBlock)) (mi mi2 : Except String ℚ)
    (h : language ≠ "python") :
    analyze_complexity language cc = (⟨0, 0, none⟩, []) ∧
    analyze_complexity language cc = analyze_complexity language cc2 ∧
    calculate_maintainability_index language mi = 0 ∧
    (get_analysis_summary code language cc mi).complexity = ⟨0, 0, none⟩ ∧
    (get_analysis_summary code language cc mi).maintainability_index = 0 ∧
    (get_analysis_summary code language cc mi).complexity =
      (get_analysis_summary code2 language cc2 mi2).complexity := by
  have h1 := analyze_complexity_non_python language h cc
  have h2 := analyze_complexity_non_python language h cc2
  have h3 : calculate_maintainability_index language mi = 0 := by
    simp [calculate_maintainability_index, h]
  refine ⟨h1, h1.trans h2.symm, h3, ?_, ?_, ?_⟩
  · show (analyze_complexity language cc).1 = _
    rw [h1]
  · exact h3
  · show (analyze_complexity language cc).1 = (analyze_complexity language cc2).1
    rw [h1, h2]

/-- Witness for C5 at `language := "javascript"` with two different code
strings and disagreeing oracle outcomes. -/
theorem C5_non_python_degraded_witness :
    ("javascript" : String) ≠ "python" ∧
    (analyze_complexity "javascript" (Except.ok [⟨"f", 20⟩]) =
        (⟨0, 0, none⟩, []) ∧
      analyze_complexity "javascript" (Except.ok [⟨"f", 20⟩]) =
        analyze_complexity "javascript" (Except.error "boom") ∧
      calculate_maintainability_index "javascript" (Except.ok 50) = 0 ∧
      (get_analysis_summary "a" "javascript" (Except.ok [⟨"f", 20⟩])
        (Except.ok 50)).complexity = ⟨0, 0, none⟩ ∧
      (get_analysis_summary "a" "javascript" (Except.ok [⟨"f", 20⟩])
        (Except.ok 50)).maintainability_index = 0 ∧
      (get_analysis_summary "a" "javascript" (Except.ok [⟨"f", 20⟩])
        (Except.ok 50)).complexity =
        (get_analysis_summary "b" "javascript" (Except.error "boom")
          (Except.error "mi")).complexity) :=
  ⟨by decide,
    C5_non_python_degraded "javascript" "a" "b" (Except.ok [⟨"f", 20⟩])
      (Except.error "boom") (Except.ok 50) (Except.error "mi") (by decide)⟩

/-- C8: `suggest_improvements` on an empty issue list returns exactly
"No critical issues found. Code looks good!" and does not invoke the
external text-generation service (the call flag is `false`). -/
theorem C8_suggest_improvements_empty (code : String)
    (api : String → Except String String) :
    AICodeChecker.suggest_improvements code [] api =
      ("No critical issues found. Code looks good!", false) := rfl

/-- C10: on the empty code string (where `cc_visit` reports no measurable
functions, i.e. the oracle returns the empty block list), the summary has
`lines_of_code = 1` (splitting on newline yields one empty line), an empty
issue list, `total_issues = 0`, and zero average and max complexity. -/
theorem C10_empty_code (language : String) (mi : Except String ℚ) :
    (get_analysis_summary "" language (Except.ok []) mi).lines_of_code
        = 1 ∧
    (get_analysis_summary "" language (Except.ok []) mi).issues = [] ∧
    (get_analysis_summary "" language (Except.ok []) mi).total_issues
        = 0 ∧
    (get_analysis_summary "" language
      (Except.ok []) mi).complexity.average_complexity = 0 ∧
    (get_analysis_summary "" language
      (Except.ok []) mi).complexity.max_complexity = 0 := by
  have hac : analyze_complexity language (Except.ok ([] : List CCBlock)) =
      (⟨0, 0, none⟩, []) := by
    by_cases h : language = "python"
    · subst h; rfl
    · exact analyze_complexity_non_python language h _
  have hscan := check_common_issues_empty language
  refine ⟨rfl, ?_, ?_, ?_, ?_⟩ <;>
    simp [get_analysis_summary, hac, hscan]

/-- C3: the summary's issue list is, for every input, exactly the
concatenation of the detection passes in their fixed order — the
complexity pass (whose issues are all `highComplexity`), then the
long-line, TODO/FIXME, debug-print and bare-except passes — and within
each line-scan pass the emitted issues carry strictly increasing line
numbers; the list is never globally re-sorted. -/
theorem C3_issue_ordering (code language : String)
    (cc : Except String (List CCBlock)) (mi : Except String ℚ) :
    (get_analysis_summary code language cc mi).issues =
        (analyze_complexity language cc).2 ++
          (scanPass longLineCheck (pySplitLines code) ++
            (scanPass todoCheck (pySplitLines code) ++
              ((if language = "python" then
                  scanPass debugCheck (pySplitLines code) else []) ++
                (if language = "python" then
                  scanPass bareExceptCheck (pySplitLines code) else [])))) ∧
      (∀ y ∈ (analyze_complexity language cc).2,
        ∃ f c m, y = Issue.highComplexity f c m) ∧
      List.Pairwise (fun a b => issueLine a < issueLine b)
        (scanPass longLineCheck (pySplitLines code)) ∧
      List.Pairwise (fun a b => issueLine a < issueLine b)
        (scanPass todoCheck (pySplitLines code)) ∧
      List.Pairwise (fun a b => issueLine a < issueLine b)
        (scanPass debugCheck (pySplitLines code)) ∧
      List.Pairwise (fun a b => issueLine a < issueLine b)
        (scanPass bareExceptCheck (pySplitLines code)) := by
  refine ⟨?_, analyze_complexity_snd_hc language cc, ?_, ?_, ?_, ?_⟩
  · simp [get_analysis_summary, check_common_issues, scanPass,
      List.append_assoc]
  · exact scanPass_pairwise longLineCheck longLineCheck_line 1 _
  · exact scanPass_pairwise todoCheck todoCheck_line 1 _
  · exact scanPass_pairwise debugCheck debugCheck_line 1 _
  · exact scanPass_pairwise bareExceptCheck bareExceptCheck_line 1 _

/-- C4: for a function list with distinct names measured by the
complexity pass on the deeply supported language, a function strictly
above the threshold 10 yields exactly one `highComplexity` issue carrying
its name, its complexity and the templated message, and a function at or
below 10 yields none. -/
theorem C4_high_complexity_threshold (results : List CCBlock) (r : CCBlock)
    (hnd : (results.map CCBlock.name).Nodup) (hr : r ∈ results) :
    ((analyze_complexity "python" (Except.ok results)).2.countP
        (hcFor r.name) = if 10 < r.complexity then 1 else 0) ∧
    (10 < r.complexity →
      Issue.highComplexity r.name r.complexity
          (hcMessage r.name r.complexity) ∈
        (analyze_complexity "python" (Except.ok results)).2) := by
  have hne : results ≠ [] := by rintro rfl; simp at hr
  rw [analyze_complexity_python_ok results hne]
  constructor
  · exact hc_filterMap_countP r results hnd hr
  · intro hc
    exact List.mem_filterMap.mpr ⟨r, hr, by simp [hc]⟩

/-- Witness for C4 on two functions "f" (complexity 11: one issue) and
"g" (complexity 10: no issue). -/
theorem C4_high_complexity_threshold_witness :
    (([⟨"f", 11⟩, ⟨"g", 10⟩] : List CCBlock).map CCBlock.name).Nodup ∧
    ((⟨"f", 11⟩ : CCBlock) ∈ ([⟨"f", 11⟩, ⟨"g", 10⟩] : List CCBlock)) ∧
    ((⟨"g", 10⟩ : CCBlock) ∈ ([⟨"f", 11⟩, ⟨"g", 10⟩] : List CCBlock)) ∧
    (((analyze_complexity "python"
          (Except.ok [⟨"f", 11⟩, ⟨"g", 10⟩])).2.countP (hcFor "f") =
        if 10 < (11 : Nat) then 1 else 0) ∧
      (10 < (11 : Nat) →
        Issue.highComplexity "f" 11 (hcMessage "f" 11) ∈
          (analyze_complexity "python"
            (Except.ok [⟨"f", 11⟩, ⟨"g", 10⟩])).2)) ∧
    ((analyze_complexity "python"
        (Except.ok [⟨"f", 11⟩, ⟨"g", 10⟩])).2.countP (hcFor "g") =
      if 10 < (10 : Nat) then 1 else 0) :=
  ⟨by decide, by decide, by decide,
    C4_high_complexity_threshold [⟨"f", 11⟩, ⟨"g", 10⟩] ⟨"f", 11⟩
      (by decide) (by decide),
    (C4_high_complexity_threshold [⟨"f", 11⟩, ⟨"g", 10⟩] ⟨"g", 10⟩
      (by decide) (by decide)).1⟩

/-- C6: the long-line pass emits, for the line at 0-based index `i` of
the newline-split code, exactly one issue carrying line number `i + 1`
when the line is strictly longer than 120 characters and none otherwise;
the emitted issue is a Style issue whose message cites the 1-based line
number and the exact character count, and the pass emits nothing but
Style issues. -/
theorem C6_long_line_pass (code : String) (i : Nat) (line : String)
    (h : (pySplitLines code).get? i = some line) :
    ((scanPass longLineCheck (pySplitLines code)).countP
        (fun y => issueLine y == i + 1) =
      if 120 < line.length then 1 else 0) ∧
    (120 < line.length →
      Issue.style (i + 1) (styleMessage (i + 1) line.length) ∈
        scanPass longLineCheck (pySplitLines code)) ∧
    (∀ y ∈ scanPass longLineCheck (pySplitLines code),
      ∃ j m, y = Issue.style j m) := by
  have hcomm : 1 + i = i + 1 := Nat.add_comm 1 i
  refine ⟨?_, ?_, ?_⟩
  · have hcount := scanPass_countP longLineCheck longLineCheck_line
      (pySplitLines code) 1 i line h
    rw [hcomm] at hcount
    show List.countP (fun y => issueLine y == i + 1)
        ((List.enumFrom 1 (pySplitLines code)).filterMap
          (fun p => longLineCheck p.1 p.2)) =
      if 120 < line.length then 1 else 0
    rw [hcount]
    by_cases hlen : 120 < line.length
    · simp [longLineCheck, hlen]
    · simp [longLineCheck, hlen]
  · intro hlen
    refine scanPass_mem longLineCheck (pySplitLines code) 1 i line _ h ?_
    show longLineCheck (1 + i) line =
      some (Issue.style (i + 1) (styleMessage (i + 1) line.length))
    rw [hcomm]
    simp [longLineCheck, hlen]
  · intro y hy
    rcases List.mem_filterMap.mp hy with ⟨p, _, hval⟩
    unfold longLineCheck at hval
    split at hval
    · injection hval with hval
      subst hval
      exact ⟨p.1, styleMessage p.1 p.2.length, rfl⟩
    · cases hval

/-- Witness for C6 on a two-line code whose second line has 121
characters. -/
theorem C6_long_line_pass_witness :
    ((pySplitLines ("ok\n" ++ String.mk (List.replicate 121 'a'))).get? 1 =
      some (String.mk (List.replicate 121 'a'))) ∧
    (((scanPass longLineCheck (pySplitLines
          ("ok\n" ++ String.mk (List.replicate 121 'a')))).countP
        (fun y => issueLine y == 1 + 1) =
      if 120 < (String.mk (List.replicate 121 'a')).length then 1 else 0) ∧
    (120 < (String.mk (List.replicate 121 'a')).length →
      Issue.style (1 + 1) (styleMessage (1 + 1)
          (String.mk (List.replicate 121 'a')).length) ∈
        scanPass longLineCheck (pySplitLines
          ("ok\n" ++ String.mk (List.replicate 121 'a')))) ∧
    (∀ y ∈ scanPass longLineCheck (pySplitLines
        ("ok\n" ++ String.mk (List.replicate 121 'a'))),
      ∃ j m, y = Issue.style j m)) :=
  ⟨by decide,
    C6_long_line_pass ("ok\n" ++ String.mk (List.replicate 121 'a')) 1
      (String.mk (List.replicate 121 'a')) (by decide)⟩

/-- C7 counterexample: when constructing the AI checker fails (e.g. a
missing API key raised in `AICodeChecker.__init__`), the endpoint's own
handler produces "AI review not available: <msg>", which does not have
the "AI Review unavailable: <msg>" form the claim requires of every
failed AI path. -/
theorem C7_counterexample :
    views.ai_feedback_of true (views.AIOutcome.ctorError "boom") =
      "AI review not available: boom" ∧
    ("AI Review unavailable: ".data.isPrefixOf
      (views.ai_feedback_of true
        (views.AIOutcome.ctorError "boom")).data) = false := by
  exact ⟨rfl, by decide⟩

/-- C7 amended: on any failure of the narrative review call itself,
`AICodeChecker.review_code` returns exactly "AI Review unavailable:
<error message>" and never raises, and the endpoint's `ai_feedback`
mirrors it; but when constructing the checker fails, the endpoint's own
handler yields "AI review not available: <error message>" instead, so a
failed AI path produces one of the two degraded strings, not always the
first. -/
theorem C7_ai_failure_string (e : String) (o : views.AIOutcome) :
    AICodeChecker.review_code (Except.error e) =
      "AI Review unavailable: " ++ e ∧
    views.ai_feedback_of true (views.AIOutcome.callResult
      (Except.error e)) = "AI Review unavailable: " ++ e ∧
    views.ai_feedback_of true (views.AIOutcome.ctorError e) =
      "AI review not available: " ++ e ∧
    ((∃ s, o = views.AIOutcome.callResult (Except.ok s) ∧
        views.ai_feedback_of true o = s) ∨
      (∃ msg, views.ai_feedback_of true o =
        "AI Review unavailable: " ++ msg) ∨
      (∃ msg, views.ai_feedback_of true o =
        "AI review not available: " ++ msg)) := by
  refine ⟨rfl, rfl, rfl, ?_⟩
  cases o with
  | ctorError e2 => exact Or.inr (Or.inr ⟨e2, rfl⟩)
  | callResult r =>
    cases r with
    | ok s => exact Or.inl ⟨s, rfl, rfl⟩
    | error e2 => exact Or.inr (Or.inl ⟨e2, rfl⟩)

/-- C9 counterexample: for three functions of complexities 1, 1, 2 the raw
mean is 4/3, but the persisted `complexity_score` is the already-rounded
133/100 — the persisted value is not the raw unrounded average the claim
describes. -/
theorem C9_counterexample :
    (views.review_code "x" "python" false
        (Except.ok [⟨"a", 1⟩, ⟨"b", 1⟩, ⟨"c", 2⟩]) (Except.ok 0)
        (views.AIOutcome.callResult (Except.ok ""))).1.complexity_score =
      133 / 100 ∧
    rawAverage [⟨"a", 1⟩, ⟨"b", 1⟩, ⟨"c", 2⟩] = 4 / 3 ∧
    (views.review_code "x" "python" false
        (Except.ok [⟨"a", 1⟩, ⟨"b", 1⟩, ⟨"c", 2⟩]) (Except.ok 0)
        (views.AIOutcome.callResult (Except.ok ""))).1.complexity_score ≠
      rawAverage [⟨"a", 1⟩, ⟨"b", 1⟩, ⟨"c", 2⟩] := by
  have hscore : (views.review_code "x" "python" false
      (Except.ok [⟨"a", 1⟩, ⟨"b", 1⟩, ⟨"c", 2⟩]) (Except.ok 0)
      (views.AIOutcome.callResult (Except.ok ""))).1.complexity_score =
      round2 (rawAverage [⟨"a", 1⟩, ⟨"b", 1⟩, ⟨"c", 2⟩]) := by
    show (analyze_complexity "python"
      (Except.ok [⟨"a", 1⟩, ⟨"b", 1⟩, ⟨"c", 2⟩])).1.average_complexity = _
    rw [analyze_complexity_python_ok _ (by simp)]
  have hraw : rawAverage [⟨"a", 1⟩, ⟨"b", 1⟩, ⟨"c", 2⟩] = 4 / 3 := by
    unfold rawAverage
    norm_num
  have hfloor : ⌊(400 : ℚ) / 3⌋ = (133 : ℤ) := by
    rw [Int.floor_eq_iff]
    constructor <;> norm_num
  have hround : round2 ((4 : ℚ) / 3) = 133 / 100 := by
    have h100 : (100 : ℚ) * (4 / 3) = 400 / 3 := by norm_num
    unfold round2 roundHalfEven
    rw [h100, hfloor]
    have hlt : (400 : ℚ) / 3 - ((133 : ℤ) : ℚ) < 1 / 2 := by norm_num
    rw [if_pos hlt]
    norm_num
  refine ⟨?_, hraw, ?_⟩
  · rw [hscore, hraw, hround]
  · rw [hscore, hraw, hround]
    norm_num

/-- C9 amended: the persisted record's `complexity_score` always equals
the summary's `average_complexity` at the moment of persistence, and on
the deeply supported language with measurable functions both carry the
2-decimal-rounded mean of the function complexities (persisted and
reported values are identical; neither is the raw unrounded float). -/
theorem C9_complexity_score_persistence (code : String) (use_ai : Bool)
    (results : List CCBlock) (mi : Except String ℚ) (ai : views.AIOutcome)
    (hres : results ≠ []) :
    (∀ language cc,
      (views.review_code code language use_ai cc mi ai).1.complexity_score =
        (views.review_code code language use_ai cc mi
          ai).2.complexity.average_complexity) ∧
    (views.review_code code "python" use_ai (Except.ok results) mi
        ai).1.complexity_score = round2 (rawAverage results) := by
  refine ⟨fun language cc => rfl, ?_⟩
  show (analyze_complexity "python"
    (Except.ok results)).1.average_complexity = round2 (rawAverage results)
  rw [analyze_complexity_python_ok results hres]

/-- Witness for C9 amended, on the same three-function oracle outcome as
the counterexample. -/
theorem C9_complexity_score_persistence_witness :
    (([⟨"a", 1⟩, ⟨"b", 1⟩, ⟨"c", 2⟩] : List CCBlock) ≠ []) ∧
    ((∀ language cc,
      (views.review_code "x" language false cc (Except.ok 0)
        (views.AIOutcome.callResult (Except.ok ""))).1.complexity_score =
        (views.review_code "x" language false cc (Except.ok 0)
          (views.AIOutcome.callResult
            (Except.ok ""))).2.complexity.average_complexity) ∧
    (views.review_code "x" "python" false
        (Except.ok [⟨"a", 1⟩, ⟨"b", 1⟩, ⟨"c", 2⟩]) (Except.ok 0)
        (views.AIOutcome.callResult (Except.ok ""))).1.complexity_score =
      round2 (rawAverage [⟨"a", 1⟩, ⟨"b", 1⟩, ⟨"c", 2⟩])) :=
  ⟨by decide,
    C9_complexity_score_persistence "x" false
      [⟨"a", 1⟩, ⟨"b", 1⟩, ⟨"c", 2⟩] (Except.ok 0)
      (views.AIOutcome.callResult (Except.ok "")) (by decide)⟩

end AICodeReview
